import Mathlib

/-!
Verification of the Literature Manager browser extension's paper-library
store against its specification.

The JavaScript sources are embedded shallowly: each definition below mirrors
one function of the repository (file and line references in the doc
comments).  `chrome.storage.local` is modelled as an explicit value threaded
through the operations; the cooperatively scheduled asynchronous callbacks
that interleave around `await` points are modelled as explicit event
schedules over atomic read/write steps.
-/

/-! ## Stored papers and the `saveDoc` read-modify-write (part_002, save_upload.js) -/

/-- A paper record as persisted by the lightweight variant
(`save_upload.js`, `part_002`): only the fields the claims touch. -/
structure StoredDoc where
  id : String := ""
  title : String := ""
  year : Int := 0
deriving DecidableEq, Repr

/-- `saveDoc` from `part_002` lines 11-16: assigns `doc.id = Date.now().toString()`
and appends to the loaded document list, then writes the list back.  The
`Date.now()` value is the `now` parameter; the read (`loadDB`) and the write
(`chrome.storage.local.set`) are separated in the interleaving model below. -/
def saveDoc (now : Nat) (db : List StoredDoc) (doc : StoredDoc) : List StoredDoc :=
  db ++ [{ doc with id := toString now }]

/-- `renderPapers` from `save_upload.js` lines 155-171 (the variant the spec's
"lightweight" eviction sentence points at): renders "No saved papers" when the
list is empty, otherwise renders `papers.slice(-5).reverse()` as
`` `${p.title} (${p.year})` `` lines.  It only renders; it never writes the store. -/
def renderPapers (papers : List StoredDoc) : List String :=
  if papers.length = 0 then ["No saved papers"]
  else ((papers.drop (papers.length - 5)).reverse).map (fun p => s!"{p.title} ({p.year})")

/-- State of two overlapping `saveDoc` calls: the persisted store plus the
snapshot each call obtained from its `await loadDB()` (none until its read
step has run). -/
structure SaveRace where
  store : List StoredDoc
  snap1 : Option (List StoredDoc) := none
  snap2 : Option (List StoredDoc) := none
deriving DecidableEq, Repr

/-- Atomic steps of two overlapping `saveDoc` calls.  Each call performs its
`loadDB` read and then its `chrome.storage.local.set` write; the cooperative
scheduler may interleave the four steps in any order. -/
inductive SaveEvent where
  | read1
  | write1
  | read2
  | write2
deriving DecidableEq, Repr

/-- One scheduler step: a read stores a snapshot of the current store, a write
persists that call's snapshot with its document appended (`saveDoc`).  A write
before the corresponding read cannot happen in the source and is a no-op. -/
def saveStep (now1 now2 : Nat) (d1 d2 : StoredDoc) (s : SaveRace) : SaveEvent → SaveRace
  | .read1 => { s with snap1 := some s.store }
  | .read2 => { s with snap2 := some s.store }
  | .write1 =>
    match s.snap1 with
    | some db => { s with store := saveDoc now1 db d1 }
    | none => s
  | .write2 =>
    match s.snap2 with
    | some db => { s with store := saveDoc now2 db d2 }
    | none => s

/-- Run two overlapping `saveDoc` calls under an explicit interleaving,
starting from an empty store. -/
def runSaves (now1 now2 : Nat) (d1 d2 : StoredDoc) (sched : List SaveEvent) : SaveRace :=
  sched.foldl (saveStep now1 now2 d1 d2) { store := [] }

/-! ## Viewed-suggestions set (suggest.js / clear_cache.js click handler) -/

/-- The viewed-link recording done by the suggestion click handlers
(`suggest.js` lines 34-40, `clear_cache.js` lines 72-78): read
`viewedSuggestions`, and only if the url is not already included, write back
the list with the url appended. -/
def recordViewedLink (viewedSuggestions : List String) (url : String) : List String :=
  if viewedSuggestions.contains url then viewedSuggestions
  else viewedSuggestions ++ [url]

/-! ## The clear-cache click handler (clear_cache.js lines 20-24) -/

/-- A value stored under one key of `chrome.storage.local`.  The concrete
shape is irrelevant to the frame-effect claim; papers keep their structure
and everything else is raw JSON text. -/
inductive StorageValue where
  | papersVal (ps : List StoredDoc)
  | rawVal (json : String)
deriving DecidableEq, Repr

/-- The persisted key-value store (`chrome.storage.local`), holding keys such
as "papers", "clusters", "settings", "userPreferences", "viewedSuggestions"
and "recentRelatedWork". -/
def ChromeStorage : Type := List (String × StorageValue)

/-- Look a key up in the store. -/
def storageGet (st : ChromeStorage) (key : String) : Option StorageValue :=
  match st.find? (fun e => e.1 == key) with
  | some e => some e.2
  | none => none

/-- The `clearCache` click handler (`clear_cache.js` lines 20-24): it calls
`chrome.storage.local.clear()` — emptying the whole store — and then shows
the toast "All cache cleared". -/
def clearCacheClick (_st : ChromeStorage) : ChromeStorage × String :=
  (([] : List (String × StorageValue)), "All cache cleared")

/-! ## Search (popup.js `performSearch`, lines 451-476) -/

/-- A paper as searched by the popup: the four searched fields. -/
structure SPaper where
  title : String := ""
  abstract : String := ""
  authors : List String := []
  keywords : List String := []
deriving DecidableEq, Repr

/-- JavaScript `String.prototype.includes`: `q` occurs contiguously in `s`. -/
def jsIncludes (s q : String) : Bool :=
  (List.range (s.data.length + 1)).any (fun i => q.data.isPrefixOf (s.data.drop i))

/-- The characters JavaScript `trim` strips (the ones relevant here). -/
def jsWhitespace (c : Char) : Bool :=
  c == ' ' || c == '\t' || c == '\n' || c == '\r'

/-- JavaScript `String.prototype.trim`: strip leading and trailing whitespace. -/
def jsTrim (s : String) : String :=
  String.mk (((s.data.dropWhile jsWhitespace).reverse.dropWhile jsWhitespace).reverse)

/-- JavaScript `String.prototype.toLowerCase` (on the alphabets used here). -/
def jsToLower (s : String) : String :=
  String.mk (s.data.map Char.toLower)

/-- The predicate of the filter in `performSearch` (`popup.js` lines 464-471):
`query` is `searchQuery.toLowerCase()`, and a paper passes when the title,
any author, any keyword, or the abstract — each lowercased — includes it. -/
def matchesQuery (searchQuery : String) (paper : SPaper) : Bool :=
  let query := jsToLower searchQuery
  jsIncludes (jsToLower paper.title) query
    || paper.authors.any (fun author => jsIncludes (jsToLower author) query)
    || paper.keywords.any (fun keyword => jsIncludes (jsToLower keyword) query)
    || jsIncludes (jsToLower paper.abstract) query

/-- `performSearch` (`popup.js` lines 451-476) with the "all" cluster filter:
it copies the current papers and applies the text filter only when
`this.searchQuery.trim()` is truthy, i.e. when the trimmed query is
non-empty; otherwise every paper is returned. -/
def performSearch (currentPapers : List SPaper) (searchQuery : String) : List SPaper :=
  if (jsTrim searchQuery).data.isEmpty then currentPapers
  else currentPapers.filter (fun paper => matchesQuery searchQuery paper)

/-! ## `deletePaper` (popup.js lines 653-681) -/

/-- A paper object as held in `this.currentPapers` and inside each cluster
of the popup controller. -/
structure CPaper where
  id : String
  title : String := ""
deriving DecidableEq, Repr

/-- A cluster object as held in `this.currentClusters`: its member papers
are paper objects, matched against deleted papers by `id`. -/
structure PCluster where
  id : String := ""
  name : String := ""
  papers : List CPaper := []
deriving DecidableEq, Repr

/-- The popup controller's library state that `deletePaper` persists. -/
structure PopupState where
  papers : List CPaper := []
  clusters : List PCluster := []
deriving DecidableEq, Repr

/-- `LiteratureManager.deletePaper` (`popup.js` lines 653-681).  `confirmed`
is the result of the `confirm(...)` dialog, whose cancellation makes the
whole body an early return.  The body filters the paper out of
`currentPapers`, strips it from every cluster's `papers`, drops clusters left
with no papers, and persists.  The JavaScript function has no `return`
statement with a value, so it always returns `undefined`, modelled as
`none : Option Bool`. -/
def deletePaper (st : PopupState) (paperId : String) (confirmed : Bool) :
    PopupState × Option Bool :=
  if confirmed = false then (st, none)
  else
    let newPapers := st.papers.filter (fun p => p.id != paperId)
    let strippedClusters := st.clusters.map
      (fun c => { c with papers := c.papers.filter (fun p => p.id != paperId) })
    let newClusters := strippedClusters.filter (fun c => decide (0 < c.papers.length))
    ({ papers := newPapers, clusters := newClusters }, none)

/-- Concrete library with one paper "a" that also sits in one cluster. -/
def popupStateEx : PopupState :=
  { papers := [{ id := "a", title := "PaperA" }],
    clusters := [{ id := "c1", name := "C1n", papers := [{ id := "a", title := "PaperA" }] }] }

/-! ## Fallback clustering (background.js `performLocalClustering`, lines 337-377) -/

/-- A paper as fed into the clustering fallback. -/
structure KPaper where
  id : String := ""
  title : String := ""
  keywords : List String := []
deriving DecidableEq, Repr

/-- A cluster object produced by `performLocalClustering`.  Fractional scores
are embedded as rationals; `created_date` carries the `new Date().toISOString()`
timestamp threaded in as a parameter. -/
structure KCluster where
  id : String
  name : String
  description : String
  color : String
  papers : List KPaper
  keywords : List String
  similarity_score : ℚ
  created_date : String
deriving DecidableEq, Repr

/-- The `algorithm_info` part of the clustering result. -/
structure AlgorithmInfo where
  algorithm : String
  min_cluster_size : Nat
  execution_time : ℚ
deriving DecidableEq, Repr

/-- The `quality_metrics` part of the clustering result. -/
structure QualityMetrics where
  silhouette_score : ℚ
  inertia : Option ℚ
  num_clusters : Nat
deriving DecidableEq, Repr

/-- The value returned by `performLocalClustering`. -/
structure ClusteringResult where
  clusters : List KCluster
  algorithm_info : AlgorithmInfo
  quality_metrics : QualityMetrics
deriving DecidableEq, Repr

/-- The bucket of a paper, `paper.keywords[0] || 'general'`
(background.js line 344): the first keyword, except that a missing first
keyword — and, by JavaScript falsiness, an empty-string one — buckets the
paper under "general". -/
def firstKeyword (p : KPaper) : String :=
  match p.keywords with
  | [] => "general"
  | k :: _ => if k = "" then "general" else k

/-- Pushing one paper into the `keywordGroups` object
(background.js lines 343-349): if the key is present, append to its array,
otherwise add the key at the end (JavaScript objects keep string keys in
insertion order). -/
def addToGroups (groups : List (String × List KPaper)) (key : String) (p : KPaper) :
    List (String × List KPaper) :=
  match groups with
  | [] => [(key, [p])]
  | (k, ps) :: rest =>
    if k = key then (k, ps ++ [p]) :: rest
    else (k, ps) :: addToGroups rest key p

/-- The whole `keywordGroups` object after the `papers.forEach` loop
(background.js lines 341-349). -/
def keywordGroups (papers : List KPaper) : List (String × List KPaper) :=
  papers.foldl (fun gs p => addToGroups gs (firstKeyword p) p) []

/-- `capitalizeFirstLetter` (background.js lines 751-753):
`string.charAt(0).toUpperCase() + string.slice(1)`. -/
def capitalizeFirstLetter (s : String) : String :=
  match s.data with
  | [] => ""
  | c :: rest => String.mk (c.toUpper :: rest)

/-- The fixed 12-colour palette of `generateClusterColor`
(background.js lines 743-747). -/
def clusterColors : List String :=
  ["#FF6B6B", "#4ECDC4", "#45B7D1", "#96CEB4",
   "#FFEAA7", "#DDA0DD", "#98D8C8", "#F7DC6F",
   "#BB8FCE", "#85C1E9", "#F8C471", "#82E0AA"]

/-- `generateClusterColor` (background.js lines 742-749):
`colors[index % colors.length]`. -/
def generateClusterColor (index : Nat) : String :=
  clusterColors.getD (index % clusterColors.length) ""

/-- JavaScript `new Set(list)` iterated back into an array: deduplication
keeping the first occurrence of each element, in insertion order. -/
def jsSetDedup (l : List String) : List String :=
  l.foldl (fun acc x => if acc.contains x then acc else acc ++ [x]) []

/-- `BackgroundService.performLocalClustering` (background.js lines 337-377):
group papers by first keyword, keep the groups with at least one paper,
and map each group (with its position `index` in the filtered array) to a
cluster with capitalized name, palette colour `generateClusterColor index`,
the grouped papers as members, and the constant cohesion placeholder 0.7. -/
def performLocalClustering (now : String) (papers : List KPaper) : ClusteringResult :=
  let groups := keywordGroups papers
  let clusters := ((groups.filter (fun g => decide (1 ≤ g.2.length))).enum).map
    (fun ie => show KCluster from
      { id := s!"cluster_{ie.1 + 1}",
        name := capitalizeFirstLetter ie.2.1,
        description := s!"Papers related to {ie.2.1}",
        color := generateClusterColor ie.1,
        papers := ie.2.2,
        keywords := ie.2.1 :: jsSetDedup (((ie.2.2.map (fun p => p.keywords)).flatten).take 5),
        similarity_score := (7 : ℚ) / 10,
        created_date := now })
  { clusters := clusters,
    algorithm_info :=
      { algorithm := "keyword_based_local", min_cluster_size := 1,
        execution_time := (1 : ℚ) / 10 },
    quality_metrics :=
      { silhouette_score := (3 : ℚ) / 5, inertia := none,
        num_clusters := clusters.length } }

/-- The distinct buckets of a paper list in first-seen order; this is the
key order a JavaScript object gives `Object.entries` for these keys. -/
def seenBuckets (papers : List KPaper) : List String :=
  papers.foldl
    (fun ks p => if firstKeyword p ∈ ks then ks else ks ++ [firstKeyword p]) []

/-- The value a key holds in a grouping association list (empty when absent). -/
def valueOf (gs : List (String × List KPaper)) (k : String) : List KPaper :=
  match gs.find? (fun g => g.1 == k) with
  | some g => g.2
  | none => []

/-- The library of the claim's example: three papers whose keyword lists are
`[["ml"], ["ml"], ["nlp"]]`. -/
def mlNlpExample : List KPaper :=
  [{ id := "p1", keywords := ["ml"] },
   { id := "p2", keywords := ["ml"] },
   { id := "p3", keywords := ["nlp"] }]

/-! ## Document analysis (background.js `analyzeDocument`, lines 213-256) -/

/-- The `ANALYZE_DOCUMENT` payload fields `analyzeDocument` reads. -/
structure AnalyzeRequest where
  fileData : String := ""
  fileName : String := ""
  fileType : String := ""
  fileSize : Nat := 0
deriving DecidableEq, Repr

/-- The `file_info` object built by `analyzeDocument`. -/
structure FileInfo where
  original_name : String
  size : Nat
  type : String
deriving DecidableEq, Repr

/-- The record `analyzeDocument` returns on its success path.  Since
`sendPdfToPython` contains no `return` statement, `apiResult` is `undefined`
and `...apiResult` contributes no fields, leaving only `id` and `file_info`. -/
structure AnalyzedRecord where
  id : String
  file_info : FileInfo
deriving DecidableEq, Repr

/-- Outcome of the external analysis gateway call performed inside
`sendPdfToPython` (`fetch` to the local analysis endpoint): either both the
request and the JSON decoding succeed, or the call fails (unreachable,
error, or timeout) and the awaited promise rejects with a message. -/
inductive GatewayOutcome where
  | ok
  | failure (message : String)
deriving DecidableEq, Repr

/-- `sendPdfToPython` (background.js lines 244-256): awaits the gateway
`fetch` and `response.json()`, logs the result, and — having no `return`
statement — resolves to `undefined` on success; a gateway failure rejects. -/
def sendPdfToPython (gw : GatewayOutcome) : Except String Unit :=
  match gw with
  | .ok => .ok ()
  | .failure msg => .error msg

/-- What one `analyzeDocument` call produces: the value it returns or the
error it throws, the `isProcessing` flag after the call, and whether the
gateway was contacted. -/
structure AnalyzeOutcome where
  result : Except String (Option AnalyzedRecord)
  isProcessing : Bool
  contactedGateway : Bool
deriving Repr

/-- `BackgroundService.analyzeDocument` (background.js lines 213-242).
If `isProcessing` is already set, it throws "Another document is currently
being processed" before the `try` block, so the gateway is not contacted and
the flag (owned by the in-flight call) is untouched.  Otherwise it sets the
flag, awaits `sendPdfToPython`; on success it returns `{id, ...apiResult,
file_info}` (`apiResult` being `undefined`), on failure the `catch` only logs
— so the function implicitly returns `undefined`, modelled as `none` — and
the `finally` clears the flag either way. -/
def analyzeDocument (isProcessing : Bool) (gw : GatewayOutcome) (req : AnalyzeRequest)
    (freshId : String) : AnalyzeOutcome :=
  if isProcessing then
    { result := .error "Another document is currently being processed",
      isProcessing := isProcessing, contactedGateway := false }
  else
    match sendPdfToPython gw with
    | .ok _ =>
      { result := .ok (some
          { id := freshId,
            file_info :=
              { original_name := req.fileName, size := req.fileSize, type := req.fileType } }),
        isProcessing := false, contactedGateway := true }
    | .error _ =>
      { result := .ok none, isProcessing := false, contactedGateway := true }

/-- A concrete upload request. -/
def analyzeRequestEx : AnalyzeRequest :=
  { fileData := "JVBERi4x", fileName := "paper.pdf",
    fileType := "application/pdf", fileSize := 1024 }

/-! ## Claim theorems -/

/-- C1: the claim says overlapping `addPaper` calls are serialized by a
per-resource lock so no insertion is lost.  The code has no lock: under the
interleaving where both calls read the store before either writes, the
second write overwrites the first and the store ends with only the second
document — the first insertion is lost.  The serialized interleaving, by
contrast, keeps both. -/
theorem saveDoc_overlapping_lost_update :
    (runSaves 1 2 { title := "A" } { title := "B" }
        [.read1, .read2, .write1, .write2]).store = [{ id := "2", title := "B", year := 0 }]
    ∧ "A" ∉ ((runSaves 1 2 { title := "A" } { title := "B" }
        [.read1, .read2, .write1, .write2]).store.map (fun d => d.title))
    ∧ (runSaves 1 2 { title := "A" } { title := "B" }
        [.read1, .write1, .read2, .write2]).store.map (fun d => d.title) = ["A", "B"] := by
  refine ⟨rfl, by decide, rfl⟩

/-- C2 counterexample: after 8 sequential `saveDoc` calls from an empty
store, the persisted store holds all 8 documents, not the claimed 5 — no
eviction cap exists. -/
theorem saveDoc_eight_adds_not_capped :
    ((List.range 8).foldl (fun db i => saveDoc i db { title := s!"D{i}" }) []).length = 8
    ∧ ((List.range 8).foldl (fun db i => saveDoc i db { title := s!"D{i}" }) []).length ≠ 5 := by
  refine ⟨rfl, by decide⟩

/-- C2 amended: 8 sequential `saveDoc` calls retain all 8 papers in the
store, in insertion order; only the rendering (`renderPapers`) restricts to
the last 5, and it shows them newest first (reversed), not in insertion
order. -/
theorem saveDoc_store_uncapped_render_last5
    (t1 t2 t3 t4 t5 t6 t7 t8 : Nat) (d1 d2 d3 d4 d5 d6 d7 d8 : StoredDoc) :
    saveDoc t8 (saveDoc t7 (saveDoc t6 (saveDoc t5 (saveDoc t4 (saveDoc t3
        (saveDoc t2 (saveDoc t1 [] d1) d2) d3) d4) d5) d6) d7) d8
      = [{ d1 with id := toString t1 }, { d2 with id := toString t2 },
         { d3 with id := toString t3 }, { d4 with id := toString t4 },
         { d5 with id := toString t5 }, { d6 with id := toString t6 },
         { d7 with id := toString t7 }, { d8 with id := toString t8 }]
    ∧ renderPapers (saveDoc t8 (saveDoc t7 (saveDoc t6 (saveDoc t5 (saveDoc t4 (saveDoc t3
        (saveDoc t2 (saveDoc t1 [] d1) d2) d3) d4) d5) d6) d7) d8)
      = [s!"{d8.title} ({d8.year})", s!"{d7.title} ({d7.year})", s!"{d6.title} ({d6.year})",
         s!"{d5.title} ({d5.year})", s!"{d4.title} ({d4.year})"] := by
  constructor
  · simp [saveDoc]
  · simp [saveDoc, renderPapers]

/-- C5: the claim says a failed gateway call still yields a minimal Paper
record (filename as title, empty metadata).  In the code the `catch` in
`analyzeDocument` merely logs, so the call resolves to `undefined`: no
record of any form is produced for the upload. -/
theorem analyzeDocument_failure_no_record :
    (analyzeDocument false (.failure "fetch failed") analyzeRequestEx "id1").result = .ok none
    ∧ ∀ rec : AnalyzedRecord,
        (analyzeDocument false (.failure "fetch failed") analyzeRequestEx "id1").result
          ≠ .ok (some rec) := by
  refine ⟨rfl, fun rec h => ?_⟩
  simp [analyzeDocument, sendPdfToPython] at h

/-- C8: the viewed-link insert is idempotent — recording the same URL twice
gives the same set as recording it once, and the size grows by at most 1. -/
theorem recordViewedLink_idempotent (vs : List String) (url : String) :
    recordViewedLink (recordViewedLink vs url) url = recordViewedLink vs url
    ∧ (recordViewedLink (recordViewedLink vs url) url).length ≤ vs.length + 1 := by
  by_cases h : url ∈ vs
  · simp [recordViewedLink, h]
  · simp [recordViewedLink, h]

/-- C9: the clear-cache click handler calls `chrome.storage.local.clear()`,
so afterwards every key — papers, clusters, settings, userPreferences,
viewedSuggestions, recentRelatedWork — reads back as absent, while the
toast claims only "All cache cleared". -/
theorem clearCache_clears_everything (st : ChromeStorage) (key : String) :
    storageGet (clearCacheClick st).1 key = none
    ∧ (clearCacheClick st).2 = "All cache cleared" :=
  ⟨rfl, rfl⟩

/-- C10: while a document is being processed (`isProcessing` set), a second
`analyzeDocument` call throws "Another document is currently being
processed" without contacting the gateway; and a call that does run resets
`isProcessing` to false whether the gateway succeeds or fails. -/
theorem analyzeDocument_serial_gate (gw : GatewayOutcome) (req : AnalyzeRequest)
    (freshId : String) :
    analyzeDocument true gw req freshId =
      { result := .error "Another document is currently being processed",
        isProcessing := true, contactedGateway := false }
    ∧ (analyzeDocument false gw req freshId).isProcessing = false := by
  cases gw <;> exact ⟨rfl, rfl⟩

/-- C6 counterexample: deleting an id that is not in the library is indeed a
no-op on the state, but the function does not return `false` — it has no
return value (`undefined`, modelled `none`). -/
theorem deletePaper_missing_not_false :
    (deletePaper popupStateEx "zz" true).1 = popupStateEx
    ∧ (deletePaper popupStateEx "zz" true).2 = none
    ∧ (deletePaper popupStateEx "zz" true).2 ≠ some false := by
  decide

/-- C7 counterexample: the query " " is non-empty, yet because
`searchQuery.trim()` is empty the filter is skipped and the paper "ab" is
returned even though none of its fields contains " ". -/
theorem performSearch_blank_query_cex :
    performSearch [{ title := "ab" }] " " = [{ title := "ab" }]
    ∧ matchesQuery " " { title := "ab" } = false := by
  refine ⟨rfl, rfl⟩

/-- C3: after `deletePaper(id)` completes, every remaining cluster is free
of the deleted id among its member papers and is non-empty. -/
theorem deletePaper_clusters_clean (st : PopupState) (paperId : String) :
    ((deletePaper st paperId true).1.clusters.all
      (fun c => c.papers.all (fun p => p.id != paperId) && decide (0 < c.papers.length)))
      = true := by
  rw [List.all_eq_true]
  intro c hc
  have hc2 : c ∈ (st.clusters.map
      (fun c => { c with papers := c.papers.filter (fun p => p.id != paperId) })).filter
        (fun c => decide (0 < c.papers.length)) := hc
  rcases List.mem_filter.mp hc2 with ⟨hmem, hpos⟩
  rcases List.mem_map.mp hmem with ⟨c₀, _, rfl⟩
  rw [Bool.and_eq_true]
  refine ⟨List.all_eq_true.mpr ?_, hpos⟩
  intro p hp
  exact (List.mem_filter.mp hp).2

/-- C6 amended: `deletePaper` on an id returns `undefined` (`none`), never a
boolean; when the id is absent from the stored papers the papers list is
untouched; and an immediately repeated `deletePaper` of the same id is a
complete no-op (state unchanged, `undefined` returned again). -/
theorem deletePaper_missing_noop (st : PopupState) (paperId : String)
    (h : paperId ∉ st.papers.map (fun p => p.id)) :
    (deletePaper st paperId true).2 = none
    ∧ (deletePaper st paperId true).1.papers = st.papers
    ∧ deletePaper (deletePaper st paperId true).1 paperId true
        = ((deletePaper st paperId true).1, none) := by
  have hfil : ∀ l : List CPaper,
      (l.filter (fun p => p.id != paperId)).filter (fun p => p.id != paperId)
        = l.filter (fun p => p.id != paperId) := by
    intro l
    rw [List.filter_filter]
    simp
  refine ⟨rfl, ?_, ?_⟩
  · show st.papers.filter (fun p => p.id != paperId) = st.papers
    refine List.filter_eq_self.mpr ?_
    intro p hp
    have hne : p.id ≠ paperId := fun he => h (List.mem_map.mpr ⟨p, hp, he⟩)
    simpa using hne
  · have hmap : ∀ c ∈ (st.clusters.map
        (fun c => { c with papers := c.papers.filter (fun p => p.id != paperId) })).filter
          (fun c => decide (0 < c.papers.length)),
        ({ c with papers := c.papers.filter (fun p => p.id != paperId) } : PCluster) = c := by
      intro c hcmem
      rcases List.mem_filter.mp hcmem with ⟨hmem, _⟩
      rcases List.mem_map.mp hmem with ⟨c₀, _, rfl⟩
      dsimp only
      rw [hfil]
    show Prod.mk (PopupState.mk
          ((st.papers.filter (fun p => p.id != paperId)).filter (fun p => p.id != paperId))
          ((((st.clusters.map
              (fun c : PCluster =>
                ({ c with papers := c.papers.filter (fun p => p.id != paperId) } : PCluster))).filter
                (fun c : PCluster => decide (0 < c.papers.length))).map
              (fun c : PCluster =>
                ({ c with papers := c.papers.filter (fun p => p.id != paperId) } : PCluster))).filter
                (fun c : PCluster => decide (0 < c.papers.length))))
        (none : Option Bool)
      = Prod.mk (PopupState.mk
          (st.papers.filter (fun p => p.id != paperId))
          ((st.clusters.map
              (fun c : PCluster =>
                ({ c with papers := c.papers.filter (fun p => p.id != paperId) } : PCluster))).filter
                (fun c : PCluster => decide (0 < c.papers.length))))
        (none : Option Bool)
    rw [hfil st.papers, List.map_congr_left hmap, List.map_id', List.filter_filter]
    simp

/-- Witness for `deletePaper_missing_noop` at a concrete library and a
concrete absent id. -/
theorem deletePaper_missing_noop_witness :
    (deletePaper popupStateEx "zz" true).2 = none
    ∧ (deletePaper popupStateEx "zz" true).1.papers = popupStateEx.papers
    ∧ deletePaper (deletePaper popupStateEx "zz" true).1 "zz" true
        = ((deletePaper popupStateEx "zz" true).1, none) :=
  deletePaper_missing_noop popupStateEx "zz" (by decide)

/-- C7 amended: for every query whose JavaScript `trim()` is non-empty, the
search returns exactly the papers of which at least one of title, authors,
keywords, abstract contains the query as a case-insensitive substring
(OR across the four fields).  (A whitespace-only query skips the filter.) -/
theorem performSearch_matches (currentPapers : List SPaper) (searchQuery : String)
    (h : (jsTrim searchQuery).data.isEmpty = false) (paper : SPaper) :
    paper ∈ performSearch currentPapers searchQuery
      ↔ paper ∈ currentPapers
        ∧ (jsIncludes (jsToLower paper.title) (jsToLower searchQuery)
            || paper.authors.any
                (fun author => jsIncludes (jsToLower author) (jsToLower searchQuery))
            || paper.keywords.any
                (fun keyword => jsIncludes (jsToLower keyword) (jsToLower searchQuery))
            || jsIncludes (jsToLower paper.abstract) (jsToLower searchQuery)) = true := by
  rw [performSearch, if_neg (by simp [h])]
  exact List.mem_filter

/-- Witness for `performSearch_matches`: searching "ATTENTION" in a
one-paper library finds the paper whose title contains "attention". -/
theorem performSearch_matches_witness :
    ({ title := "Attention Is All You Need" } : SPaper)
      ∈ performSearch [{ title := "Attention Is All You Need" }] "ATTENTION" :=
  (performSearch_matches [{ title := "Attention Is All You Need" }] "ATTENTION"
      (by decide) { title := "Attention Is All You Need" }).mpr
    ⟨List.mem_singleton_self _, by decide⟩

/-- `valueOf` at a cons cell. -/
theorem valueOf_cons (a : String) (b : List KPaper) (t : List (String × List KPaper))
    (k : String) :
    valueOf ((a, b) :: t) k = if a = k then b else valueOf t k := by
  unfold valueOf
  by_cases h : a = k
  · rw [List.find?_cons_of_pos t
      (show ((fun g : String × List KPaper => g.1 == k) (a, b)) = true by simpa using h),
      if_pos h]
  · rw [List.find?_cons_of_neg t
      (show ¬ ((fun g : String × List KPaper => g.1 == k) (a, b)) = true by simpa using h),
      if_neg h]

/-- Keys after one `addToGroups` push: unchanged if the key is present,
appended at the end otherwise. -/
theorem addToGroups_keys (gs : List (String × List KPaper)) (key : String) (p : KPaper) :
    (addToGroups gs key p).map Prod.fst =
      if key ∈ gs.map Prod.fst then gs.map Prod.fst else gs.map Prod.fst ++ [key] := by
  induction gs with
  | nil => simp [addToGroups]
  | cons g rest ih =>
    obtain ⟨k, ps⟩ := g
    by_cases hk : k = key
    · subst hk
      simp [addToGroups]
    · by_cases hmem : key ∈ rest.map Prod.fst
      · simp [addToGroups, hk, ih, hmem, List.mem_cons, Ne.symm hk]
      · simp [addToGroups, hk, ih, hmem, List.mem_cons, Ne.symm hk]

/-- Value of a key after one `addToGroups` push. -/
theorem addToGroups_valueOf (gs : List (String × List KPaper)) (key k : String) (p : KPaper) :
    valueOf (addToGroups gs key p) k =
      if k = key then valueOf gs k ++ [p] else valueOf gs k := by
  induction gs with
  | nil =>
    by_cases h : k = key
    · subst h
      simp [addToGroups, valueOf_cons, valueOf]
    · simp [addToGroups, valueOf_cons, valueOf, h, Ne.symm h]
  | cons g rest ih =>
    obtain ⟨k₀, ps⟩ := g
    by_cases hk : k₀ = key
    · subst hk
      rw [show addToGroups ((k₀, ps) :: rest) k₀ p = (k₀, ps ++ [p]) :: rest from by
        simp [addToGroups]]
      rw [valueOf_cons, valueOf_cons]
      by_cases h : k₀ = k
      · subst h
        simp
      · simp [h, Ne.symm h]
    · rw [show addToGroups ((k₀, ps) :: rest) key p = (k₀, ps) :: addToGroups rest key p from by
        simp [addToGroups, hk]]
      rw [valueOf_cons, valueOf_cons, ih]
      by_cases h0 : k₀ = k
      · subst h0
        simp [hk]
      · simp [h0]

/-- The keys accumulated by the grouping fold are the first-seen distinct
buckets. -/
theorem keywordGroups_keys_aux (papers : List KPaper) (gs : List (String × List KPaper)) :
    (papers.foldl (fun gs p => addToGroups gs (firstKeyword p) p) gs).map Prod.fst =
      papers.foldl
        (fun ks p => if firstKeyword p ∈ ks then ks else ks ++ [firstKeyword p])
        (gs.map Prod.fst) := by
  induction papers generalizing gs with
  | nil => rfl
  | cons p rest ih =>
    simp only [List.foldl_cons]
    rw [ih, addToGroups_keys]

/-- The keys of `keywordGroups` are the distinct buckets in first-seen order. -/
theorem keywordGroups_keys (papers : List KPaper) :
    (keywordGroups papers).map Prod.fst = seenBuckets papers :=
  keywordGroups_keys_aux papers []

/-- The value of every key in the grouping fold is the filter of the papers
with that bucket, in order. -/
theorem keywordGroups_valueOf_aux (papers : List KPaper) (gs : List (String × List KPaper))
    (k : String) :
    valueOf (papers.foldl (fun gs p => addToGroups gs (firstKeyword p) p) gs) k =
      valueOf gs k ++ papers.filter (fun p => firstKeyword p == k) := by
  induction papers generalizing gs with
  | nil => simp
  | cons p rest ih =>
    simp only [List.foldl_cons, List.filter_cons]
    rw [ih, addToGroups_valueOf]
    by_cases h : k = firstKeyword p
    · rw [if_pos h, if_pos (by simpa using h.symm)]
      simp
    · rw [if_neg h, if_neg (by simpa using fun hh : firstKeyword p = k => h hh.symm)]

/-- Bucket membership of `keywordGroups` values. -/
theorem keywordGroups_valueOf (papers : List KPaper) (k : String) :
    valueOf (keywordGroups papers) k = papers.filter (fun p => firstKeyword p == k) := by
  simpa [valueOf] using keywordGroups_valueOf_aux papers [] k

/-- The first-seen bucket list has no duplicates. -/
theorem seenBuckets_nodup_aux (papers : List KPaper) (ks : List String) (h : ks.Nodup) :
    (papers.foldl
      (fun ks p => if firstKeyword p ∈ ks then ks else ks ++ [firstKeyword p]) ks).Nodup := by
  induction papers generalizing ks with
  | nil => exact h
  | cons p rest ih =>
    simp only [List.foldl_cons]
    apply ih
    by_cases hm : firstKeyword p ∈ ks
    · simpa [hm] using h
    · rw [if_neg hm, List.nodup_append]
      refine ⟨h, List.nodup_singleton _, fun a ha hb => ?_⟩
      rw [List.mem_singleton] at hb
      subst hb
      exact hm ha

/-- `seenBuckets` has no duplicate buckets. -/
theorem seenBuckets_nodup (papers : List KPaper) : (seenBuckets papers).Nodup :=
  seenBuckets_nodup_aux papers [] List.nodup_nil

/-- Membership in the first-seen bucket fold. -/
theorem seenBuckets_mem_aux (papers : List KPaper) (k : String) (ks : List String) :
    k ∈ papers.foldl
        (fun ks p => if firstKeyword p ∈ ks then ks else ks ++ [firstKeyword p]) ks
      ↔ k ∈ ks ∨ ∃ p ∈ papers, firstKeyword p = k := by
  induction papers generalizing ks with
  | nil => simp
  | cons p rest ih =>
    simp only [List.foldl_cons]
    rw [ih]
    have hins : k ∈ (if firstKeyword p ∈ ks then ks else ks ++ [firstKeyword p])
        ↔ k ∈ ks ∨ firstKeyword p = k := by
      by_cases hm : firstKeyword p ∈ ks
      · rw [if_pos hm]
        constructor
        · exact Or.inl
        · rintro (hk | rfl)
          · exact hk
          · exact hm
      · rw [if_neg hm]
        simp only [List.mem_append, List.mem_singleton]
        exact or_congr_right ⟨fun hh => hh.symm, fun hh => hh.symm⟩
    rw [hins, List.exists_mem_cons_iff]
    constructor
    · rintro ((hk | he) | hex)
      · exact Or.inl hk
      · exact Or.inr (Or.inl he)
      · exact Or.inr (Or.inr hex)
    · rintro (hk | he | hex)
      · exact Or.inl (Or.inl hk)
      · exact Or.inl (Or.inr he)
      · exact Or.inr hex

/-- A bucket appears in `seenBuckets` exactly when some paper has it. -/
theorem seenBuckets_mem (papers : List KPaper) (k : String) :
    k ∈ seenBuckets papers ↔ ∃ p ∈ papers, firstKeyword p = k := by
  simpa using seenBuckets_mem_aux papers k []

/-- `addToGroups` never creates an empty group. -/
theorem addToGroups_values_ne_nil (gs : List (String × List KPaper)) (key : String)
    (p : KPaper) (h : ∀ g ∈ gs, g.2 ≠ []) :
    ∀ g ∈ addToGroups gs key p, g.2 ≠ [] := by
  induction gs with
  | nil =>
    intro g hg
    rw [show addToGroups [] key p = [(key, [p])] from rfl, List.mem_singleton] at hg
    subst hg
    simp
  | cons g₀ rest ih =>
    obtain ⟨k₀, ps⟩ := g₀
    intro g hg
    by_cases hk : k₀ = key
    · subst hk
      rw [show addToGroups ((k₀, ps) :: rest) k₀ p = (k₀, ps ++ [p]) :: rest from by
        simp [addToGroups]] at hg
      rcases List.mem_cons.mp hg with rfl | hgr
      · simp
      · exact h g (List.mem_cons_of_mem _ hgr)
    · rw [show addToGroups ((k₀, ps) :: rest) key p = (k₀, ps) :: addToGroups rest key p from by
        simp [addToGroups, hk]] at hg
      rcases List.mem_cons.mp hg with rfl | hgr
      · exact h _ (List.mem_cons_self _ _)
      · exact ih (fun g' hg' => h g' (List.mem_cons_of_mem _ hg')) g hgr

/-- No group of `keywordGroups` is empty. -/
theorem keywordGroups_values_ne_nil (papers : List KPaper) :
    ∀ g ∈ keywordGroups papers, g.2 ≠ [] := by
  have aux : ∀ (ps : List KPaper) (gs : List (String × List KPaper)),
      (∀ g ∈ gs, g.2 ≠ []) →
      ∀ g ∈ ps.foldl (fun gs p => addToGroups gs (firstKeyword p) p) gs, g.2 ≠ [] := by
    intro ps
    induction ps with
    | nil =>
      intro gs h
      simpa using h
    | cons p rest ih =>
      intro gs h
      simp only [List.foldl_cons]
      exact ih _ (addToGroups_values_ne_nil gs _ p h)
  exact aux papers [] (by simp)

/-- With duplicate-free keys, looking a group's own key up returns its value. -/
theorem valueOf_self (gs : List (String × List KPaper)) (h : (gs.map Prod.fst).Nodup) :
    ∀ g ∈ gs, valueOf gs g.1 = g.2 := by
  induction gs with
  | nil =>
    intro g hg
    simp at hg
  | cons g₀ rest ih =>
    obtain ⟨k₀, ps⟩ := g₀
    simp only [List.map_cons, List.nodup_cons] at h
    intro g hg
    rcases List.mem_cons.mp hg with rfl | hgr
    · rw [valueOf_cons, if_pos rfl]
    · have hne : k₀ ≠ g.1 := fun he => h.1 (by
        rw [he]
        exact List.mem_map.mpr ⟨g, hgr, rfl⟩)
      rw [valueOf_cons, if_neg hne]
      exact ih h.2 g hgr

/-- Mapping a function of the element over `enum` forgets the indices. -/
theorem enum_map_snd_comp {α β : Type _} (l : List α) (f : α → β) :
    l.enum.map (fun ie => f ie.2) = l.map f := by
  rw [show (fun ie : Nat × α => f ie.2) = f ∘ Prod.snd from rfl, ← List.map_map,
    List.enum_map_snd]

/-- Mapping a function of the index over `enum` is a map over `range`. -/
theorem enum_map_fst_comp {α β : Type _} (l : List α) (f : Nat → β) :
    l.enum.map (fun ie => f ie.1) = (List.range l.length).map f := by
  rw [show (fun ie : Nat × α => f ie.1) = f ∘ Prod.fst from rfl, ← List.map_map,
    List.enum_map_fst]

/-- C4: the fallback clustering groups papers by first keyword ("general"
when absent), produces exactly one cluster per distinct bucket (duplicate-free
first-seen bucket list, a bucket exactly when some paper has it, the cluster
members being precisely the papers of that bucket in order), names each
cluster by capitalizing its bucket, colours it by the bucket's first-seen
position cycling through the 12-colour palette, fixes every cohesion score
to 0.7, and on keywords `[["ml"], ["ml"], ["nlp"]]` yields the clusters
"Ml" (2 members) and "Nlp" (1 member). -/
theorem performLocalClustering_spec (now : String) (papers : List KPaper) :
    (seenBuckets papers).Nodup
    ∧ (∀ k : String, k ∈ seenBuckets papers ↔ ∃ p ∈ papers, firstKeyword p = k)
    ∧ (performLocalClustering now papers).clusters.map (fun c => c.name)
        = (seenBuckets papers).map capitalizeFirstLetter
    ∧ (performLocalClustering now papers).clusters.map (fun c => c.color)
        = (List.range (seenBuckets papers).length).map generateClusterColor
    ∧ (performLocalClustering now papers).clusters.map (fun c => c.similarity_score)
        = List.replicate (seenBuckets papers).length ((7 : ℚ) / 10)
    ∧ (performLocalClustering now papers).clusters.map (fun c => c.papers)
        = (seenBuckets papers).map (fun k => papers.filter (fun p => firstKeyword p == k))
    ∧ (performLocalClustering now mlNlpExample).clusters.map
        (fun c => (c.name, c.papers.length)) = [("Ml", 2), ("Nlp", 1)] := by
  have hfiltered : (keywordGroups papers).filter (fun g => decide (1 ≤ g.2.length))
      = keywordGroups papers := by
    refine List.filter_eq_self.mpr ?_
    intro g hg
    have hne := keywordGroups_values_ne_nil papers g hg
    simpa [Nat.one_le_iff_ne_zero, List.length_eq_zero] using hne
  have hclusters : (performLocalClustering now papers).clusters
      = (keywordGroups papers).enum.map (fun ie => show KCluster from
          { id := s!"cluster_{ie.1 + 1}",
            name := capitalizeFirstLetter ie.2.1,
            description := s!"Papers related to {ie.2.1}",
            color := generateClusterColor ie.1,
            papers := ie.2.2,
            keywords := ie.2.1 :: jsSetDedup (((ie.2.2.map (fun p => p.keywords)).flatten).take 5),
            similarity_score := (7 : ℚ) / 10,
            created_date := now }) := by
    simp only [performLocalClustering]
    rw [hfiltered]
  have hkeys : (keywordGroups papers).map Prod.fst = seenBuckets papers :=
    keywordGroups_keys papers
  have hlen : (keywordGroups papers).length = (seenBuckets papers).length := by
    rw [← hkeys, List.length_map]
  refine ⟨seenBuckets_nodup papers, fun k => seenBuckets_mem papers k, ?_, ?_, ?_, ?_, ?_⟩
  · have h0 : (performLocalClustering now papers).clusters.map (fun c => c.name)
        = (keywordGroups papers).enum.map (fun ie => capitalizeFirstLetter ie.2.1) := by
      rw [hclusters, List.map_map]
      rfl
    have h1 : (keywordGroups papers).enum.map (fun ie => capitalizeFirstLetter ie.2.1)
        = (keywordGroups papers).map (fun g => capitalizeFirstLetter g.1) :=
      enum_map_snd_comp _ (fun g : String × List KPaper => capitalizeFirstLetter g.1)
    have h2 : (keywordGroups papers).map (fun g => capitalizeFirstLetter g.1)
        = ((keywordGroups papers).map Prod.fst).map capitalizeFirstLetter := by
      rw [List.map_map]
      rfl
    rw [h0, h1, h2, hkeys]
  · have h0 : (performLocalClustering now papers).clusters.map (fun c => c.color)
        = (keywordGroups papers).enum.map (fun ie => generateClusterColor ie.1) := by
      rw [hclusters, List.map_map]
      rfl
    have h1 : (keywordGroups papers).enum.map (fun ie => generateClusterColor ie.1)
        = (List.range (keywordGroups papers).length).map generateClusterColor :=
      enum_map_fst_comp _ generateClusterColor
    rw [h0, h1, hlen]
  · have h0 : (performLocalClustering now papers).clusters.map (fun c => c.similarity_score)
        = (keywordGroups papers).enum.map (fun _ => (7 : ℚ) / 10) := by
      rw [hclusters, List.map_map]
      rfl
    rw [h0, List.map_const', List.enum_length, hlen]
  · have h0 : (performLocalClustering now papers).clusters.map (fun c => c.papers)
        = (keywordGroups papers).enum.map (fun ie => ie.2.2) := by
      rw [hclusters, List.map_map]
      rfl
    have h1 : (keywordGroups papers).enum.map (fun ie => ie.2.2)
        = (keywordGroups papers).map (fun g => g.2) :=
      enum_map_snd_comp _ (fun g : String × List KPaper => g.2)
    have hnodupkeys : ((keywordGroups papers).map Prod.fst).Nodup := by
      rw [hkeys]
      exact seenBuckets_nodup papers
    have hself := valueOf_self (keywordGroups papers) hnodupkeys
    have h2 : (keywordGroups papers).map (fun g => g.2)
        = (keywordGroups papers).map (fun g => valueOf (keywordGroups papers) g.1) :=
      List.map_congr_left (fun g hg => (hself g hg).symm)
    have h3 : (keywordGroups papers).map (fun g => valueOf (keywordGroups papers) g.1)
        = ((keywordGroups papers).map Prod.fst).map (valueOf (keywordGroups papers)) := by
      rw [List.map_map]
      rfl
    have h4 : (seenBuckets papers).map (valueOf (keywordGroups papers))
        = (seenBuckets papers).map (fun k => papers.filter (fun p => firstKeyword p == k)) :=
      List.map_congr_left (fun k _ => keywordGroups_valueOf papers k)
    rw [h0, h1, h2, h3, hkeys, h4]
  · rfl
